import Mathlib

/-!
Verification of the caption pipeline of this repository:
sentence segmentation (`src/modules/caption_generator.py`,
`CaptionGenerator._group_words_into_sentences`) and timeline
serialization / loading (`src/modules/capcut_generator.py`,
`CapCutProjectGenerator._build_capcut_structure` and
`CapCutProjectGenerator.load_latest_project`).

Modelling conventions:
* Python floats carrying timestamps are modelled as exact rationals `ℚ`;
  Python `int(x)` (truncation toward zero) and Python 3 `round(x)`
  (round half to even) are modelled explicitly as `pyInt` / `pyRound`.
* The filesystem is an oracle `fs : String → Bool` telling whether a path
  exists (`os.path.exists`).
* uuid fields (`id`, `material_id`, `draft_id`) and wall-clock times
  (`draft_create_time`, `draft_update_time`) are regenerated on every call
  and excluded by the spec from every comparison; they are omitted from the
  document model.
* Python's `list.sort(key=...)` is a stable sort on the key; a stable sort
  is extensionally unique, and is modelled by `List.insertionSort` (stable,
  structurally recursive).
* JSON dictionaries are modelled as structures whose optional keys are
  `Option` fields; `dict.get(k, d)` becomes `Option.getD`.
-/

namespace CapcutAuto

/- Rational arithmetic is sealed in the library; reopen it so that concrete
inputs in witnesses and counterexamples evaluate by `decide`. -/
unseal Rat.add Rat.sub Rat.mul Rat.inv

/-- Python `int(q)` on a numeric value: truncation toward zero. -/
def pyInt (q : ℚ) : ℤ := if 0 ≤ q then q.floor else q.ceil

/-- Python 3 `round(q)` to an integer: round half to even. -/
def pyRound (q : ℚ) : ℤ :=
  let f := q.floor
  let r := q - (f : ℚ)
  if r < 1/2 then f
  else if 1/2 < r then f + 1
  else if f % 2 = 0 then f else f + 1

/-- Python truthiness of an optional string (`if s:`):
`None` and the empty string are falsy. -/
def pyTruthy (o : Option String) : Bool := o.getD "" != ""

/-! ## Sentence segmentation (`caption_generator.py`) -/

/-- An ASR word record `{"word", "start", "end"}` (the `end` key is named
`stop` because `end` is a Lean keyword). -/
structure Word where
  word : String
  start : ℚ
  stop : ℚ
deriving Repr, DecidableEq

/-- A sentence record as flushed by `_group_words_into_sentences`. -/
structure Sentence where
  words : List Word
  text : String
  start : ℚ
  stop : ℚ
deriving Repr, DecidableEq

/-- Flushing `current_sentence` (lines 132-137 of `caption_generator.py`):
`text` is the space-joined word texts, `start`/`stop` come from the first
and last accumulated word.  Only called on non-empty lists, so the `getD 0`
defaults (Python would raise `IndexError`) are never exercised. -/
def mkSentence (ws : List Word) : Sentence :=
  { words := ws
    text := String.intercalate " " (ws.map (·.word))
    start := (ws.head?.map (·.start)).getD 0
    stop := (ws.getLast?.map (·.stop)).getD 0 }

/-- Loop of `CaptionGenerator._group_words_into_sentences`, with `cur` the
accumulated `current_sentence`.  The gap to the next word is examined only
when a next word exists; the last word always ends a sentence; a sentence
also ends when the accumulated count exceeds `maxWords`
(`len(current_sentence) > Config.MAX_WORDS_PER_SENTENCE`). -/
def group_words_go (maxPauseGap : ℚ) (maxWords : ℕ) :
    List Word → List Word → List Sentence
  | _, [] => []
  | cur, w :: rest =>
    let cur' := cur ++ [w]
    let gapEnd : Bool :=
      match rest with
      | next :: _ => decide (maxPauseGap < next.start - w.stop)
      | [] => true
    let shouldEnd := gapEnd || decide (maxWords < cur'.length)
    if shouldEnd && !cur'.isEmpty then
      mkSentence cur' :: group_words_go maxPauseGap maxWords [] rest
    else
      group_words_go maxPauseGap maxWords cur' rest

/-- Model of `CaptionGenerator._group_words_into_sentences`, parameterized by the
configuration values `Config.MAX_PAUSE_GAP` and
`Config.MAX_WORDS_PER_SENTENCE` (read from the environment). -/
def group_words_into_sentences (maxPauseGap : ℚ) (maxWords : ℕ)
    (asrWords : List Word) : List Sentence :=
  group_words_go maxPauseGap maxWords [] asrWords

/-! ## The timeline document model (`capcut_generator.py`) -/

/-- A `{"start": ..., "duration": ...}` range in integer microseconds. -/
structure TimeRange where
  start : ℤ
  duration : ℤ
deriving Repr, DecidableEq

/-- One entry of a text segment's `animations` array. -/
structure Animation where
  type : String
  duration : ℤ
deriving Repr, DecidableEq

/-- A text segment's `style` object. -/
structure TextStyle where
  bold : Bool
  italic : Bool
  underline : Bool
deriving Repr, DecidableEq

/-- A track segment.  The uuid `id` and `material_id` are omitted (see the
module docstring); JSON keys that are present only for some segment kinds
are `Option` fields.  The nested `position` object is flattened to
`position_x`/`position_y`. -/
structure Segment where
  category : String
  target_timerange : TimeRange
  source_timerange : Option TimeRange := none
  extra_material_refs : Option (List String) := none
  volume : Option ℚ := none
  content : Option String := none
  font : Option String := none
  font_size : Option ℚ := none
  color : Option (List ℤ) := none
  position_x : Option ℚ := none
  position_y : Option ℚ := none
  align : Option String := none
  style : Option TextStyle := none
  animations : Option (List Animation) := none
  metadata_emotion : Option String := none
  metadata_chunk_id : Option ℤ := none
deriving Repr, DecidableEq

/-- A track; the source's `attribute` key is named `attr` here. -/
structure Track where
  type : String
  attr : ℤ
  flag : ℤ
  segments : List Segment
deriving Repr, DecidableEq

/-- A material entry (uuid `id` omitted); audio/video materials carry
`path` and `duration`, text materials carry `content`. -/
structure Material where
  path : Option String := none
  type : String
  duration : Option ℤ := none
  content : Option String := none
deriving Repr, DecidableEq

/-- The `materials` object of the nested document. -/
structure Materials where
  audios : List Material := []
  videos : List Material := []
  texts : List Material := []
  images : List Material := []
  stickers : List Material := []
deriving Repr, DecidableEq

/-- The empty `materials` object (`{}` read via `dict.get("materials", {})`). -/
def emptyMaterials : Materials := {}

/-- The `canvas_config` object. -/
structure Canvas where
  width : ℤ
  height : ℤ
  ratio2 : String
deriving Repr, DecidableEq

/-- One entry of a legacy-format document's `captions` array:
`{start, duration, text, emotion?}` in float seconds. -/
structure LegacyCaption where
  start : ℚ
  duration : ℚ
  text : String
  emotion : Option String := none
deriving Repr, DecidableEq

/-- The persisted JSON document as read by `load_latest_project`:
nested-format keys (`tracks`, `materials`) and legacy-format keys
(`captions`, `audio`, `video`) are all optional, mirroring key presence
in the parsed JSON dictionary. -/
structure JsonDoc where
  draft_name : Option String := none
  duration : Option ℤ := none
  materials : Option Materials := none
  tracks : Option (List Track) := none
  canvas_config : Option Canvas := none
  captions : Option (List LegacyCaption) := none
  audio : Option String := none
  video : Option String := none
deriving Repr, DecidableEq

/-- A caption dictionary handed to the serializer: `start`/`end` (named
`stop`) in float seconds, `text`, and the `emotion` / `chunk_id` entries
read with `cap.get("emotion", "neutral")` / `cap.get("chunk_id", 0)`. -/
structure Caption where
  start : ℚ
  stop : ℚ
  text : String
  emotion : String := "neutral"
  chunk_id : ℤ := 0
deriving Repr, DecidableEq

/-! ## The serializer (`_build_capcut_structure`) -/

/-- The text material appended for one caption (lines 156-160). -/
def text_material_of (cap : Caption) : Material :=
  { type := "text", content := some cap.text }

/-- The one-segment text track appended for one caption (lines 151-194):
timestamps are converted with Python `int(x * 1000000)`. -/
def text_track_of (cap : Caption) : Track :=
  let start_us := pyInt (cap.start * 1000000)
  let duration_us_cap := pyInt ((cap.stop - cap.start) * 1000000)
  { type := "text", attr := 0, flag := 0
    segments := [{
      category := "text"
      target_timerange := ⟨start_us, duration_us_cap⟩
      content := some cap.text
      font := some "Arial"
      font_size := some 40
      color := some [255, 255, 255]
      position_x := some (1/2)
      position_y := some (17/20)
      align := some "center"
      style := some ⟨false, false, false⟩
      animations := some [⟨"fade_in", 200000⟩, ⟨"fade_out", 200000⟩]
      metadata_emotion := some cap.emotion
      metadata_chunk_id := some cap.chunk_id }] }

/-- Model of `CapCutProjectGenerator._build_capcut_structure` (lines 87-215).
`video_file` is the optional video basename (`None` when absent); Python's
`if video_file:` truthiness is `pyTruthy`.  The document duration is
`int(captions[-1]["end"] * 1000000)` or `0` for an empty caption list. -/
def build_capcut_structure (title : String) (video_file : Option String)
    (audio_file : String) (captions : List Caption) : JsonDoc :=
  let duration_us : ℤ :=
    match captions.getLast? with
    | some c => pyInt (c.stop * 1000000)
    | none => 0
  let videoMats : List Material :=
    if pyTruthy video_file then
      [{ path := some ("material/import/" ++ video_file.getD "")
         type := "video", duration := some duration_us }]
    else []
  let videoTracks : List Track :=
    if pyTruthy video_file then
      [{ type := "video", attr := 0, flag := 0
         segments := [{
           category := "video"
           target_timerange := ⟨0, duration_us⟩
           source_timerange := some ⟨0, duration_us⟩
           extra_material_refs := some [] }] }]
    else []
  let audioMat : Material :=
    { path := some ("material/import/" ++ audio_file)
      type := "audio", duration := some duration_us }
  let audioTrack : Track :=
    { type := "audio", attr := 0, flag := 0
      segments := [{
        category := "audio"
        target_timerange := ⟨0, duration_us⟩
        source_timerange := some ⟨0, duration_us⟩
        volume := some 1 }] }
  { draft_name := some title
    duration := some duration_us
    materials := some
      { audios := [audioMat]
        videos := videoMats
        texts := captions.map text_material_of }
    tracks := some (videoTracks ++ [audioTrack] ++ captions.map text_track_of)
    canvas_config := some ⟨1920, 1080, "16:9"⟩ }

/-! ## The loader (`load_latest_project`, lines 218-320)

The folder scan (most recently modified project directory) only picks which
document is read; the claims concern what happens from the parsed JSON
dictionary on, so the loader is modelled from the document downward. -/

/-- A caption dictionary as rebuilt by the loader:
`(start, end, text, emotion)`. -/
structure LoadedCaption where
  start : ℚ
  stop : ℚ
  text : String
  emotion : String
deriving Repr, DecidableEq

/-- Nested-format caption extraction from one text segment (lines 263-270):
microseconds back to float seconds, `content` read with default `""`,
`emotion` read from `metadata` with default `"neutral"`. -/
def caption_of_segment (seg : Segment) : LoadedCaption :=
  let start_s : ℚ := (seg.target_timerange.start : ℚ) / 1000000
  let duration_s : ℚ := (seg.target_timerange.duration : ℚ) / 1000000
  { start := start_s
    stop := start_s + duration_s
    text := seg.content.getD ""
    emotion := seg.metadata_emotion.getD "neutral" }

/-- Legacy-format caption conversion of one `captions` entry
(lines 291-297): `end = start + duration`, `emotion` defaulting to
`"neutral"`. -/
def caption_of_legacy (cap : LegacyCaption) : LoadedCaption :=
  { start := cap.start
    stop := cap.start + cap.duration
    text := cap.text
    emotion := cap.emotion.getD "neutral" }

/-- The key relation of `captions.sort(key=lambda x: x["start"])`. -/
def startLE (a b : LoadedCaption) : Prop := a.start ≤ b.start

instance : DecidableRel startLE := fun a b => inferInstanceAs (Decidable (a.start ≤ b.start))

instance : IsTotal LoadedCaption startLE := ⟨fun a b => le_total a.start b.start⟩

instance : IsTrans LoadedCaption startLE := ⟨fun _ _ _ h h' => le_trans h h'⟩

/-- Model of `os.path.join(root, rel)` (Windows separator, matching the
`path.replace("/", "\x5c")` in the loader). -/
def joinPath (root rel : String) : String := root ++ "\\" ++ rel

/-- The `audio_rel_path = audio.get("path", "").replace("/", "\x5c")`
normalization (lines 280, 285).  For the single-character pattern `"/"`,
Python's `str.replace` is exactly a character map. -/
def winPath (p : String) : String :=
  ⟨p.data.map (fun c => if c = '/' then '\\' else c)⟩

/-- The nested-format parse branch (lines 259-287).  Returns the loader's
local variables just before path validation: `some audio_path` /
`video_path` (each `none` when the corresponding materials list is empty,
because the assignment only happens inside the `for ... break` loop) and
the caption list, sorted by `start` with Python's stable sort. -/
def parse_nested (root : String) (tracks : List Track) (mats : Materials) :
    Option (Option String) × Option String × List LoadedCaption :=
  let caps :=
    ((tracks.filter (fun t => t.type == "text")).flatMap (fun t => t.segments)).map
      caption_of_segment
  let caps := caps.insertionSort startLE
  let audio_path := mats.audios.head?.map (fun m => joinPath root (winPath (m.path.getD "")))
  let video_path := mats.videos.head?.map (fun m => joinPath root (winPath (m.path.getD "")))
  (some audio_path, video_path, caps)

/-- The legacy-format parse branch (lines 290-303): captions keep the
array order; `audio_path` is always assigned (with `get('audio', '')`);
the `video` value must be present *and* truthy to yield a path. -/
def parse_legacy (root : String) (lcaps : List LegacyCaption)
    (audio video : Option String) :
    Option (Option String) × Option String × List LoadedCaption :=
  let caps := lcaps.map caption_of_legacy
  let audio_path := joinPath root (audio.getD "")
  let video_path :=
    match video with
    | some v => if v != "" then some (joinPath root v) else none
    | none => none
  (some (some audio_path), video_path, caps)

/-- Format dispatch of `load_latest_project` (lines 255-303): a `tracks`
key selects the nested branch, else a `captions` key selects the legacy
branch, else no parse branch runs and the `audio_path` local variable is
never assigned (outer `none`). -/
def parse_document (root : String) (d : JsonDoc) :
    Option (Option String) × Option String × List LoadedCaption :=
  match d.tracks with
  | some tracks => parse_nested root tracks (d.materials.getD emptyMaterials)
  | none =>
    match d.captions with
    | some lcaps => parse_legacy root lcaps d.audio d.video
    | none => (none, none, [])

/-- How `load_latest_project` can fail after parsing, with Python's actual
exception kinds. -/
inductive LoadError where
  /-- `UnboundLocalError`: `audio_path` was never assigned (document with
  neither a `tracks` nor a `captions` key reaches the validation block). -/
  | nameError
  /-- `TypeError`: `os.path.exists(None)` (nested document whose
  `materials.audios` list is empty leaves `audio_path = None`). -/
  | typeError
  /-- The explicit `Exception(f"Audio file not found: ...")` raise
  (line 307) — the spec's MissingAsset. -/
  | missingAsset (path : String)
  /-- The spec's MalformedDocument error; `load_latest_project` has no
  corresponding raise site. -/
  | malformedDocument
deriving Repr, DecidableEq

/-- Path validation (lines 305-311), given the file-existence oracle:
a missing audio path raises; a missing video path degrades to `none`. -/
def validate_paths (fs : String → Bool) :
    Option (Option String) → Option String →
    Except LoadError (String × Option String)
  | none, _ => .error .nameError
  | some none, _ => .error .typeError
  | some (some audio_path), video_path =>
    if fs audio_path then
      .ok (audio_path,
        match video_path with
        | some v => if fs v then some v else none
        | none => none)
    else
      .error (.missingAsset audio_path)

/-- Model of `load_latest_project` from the parsed document on: parse then validate,
returning `(audio_path, video_path, captions)`. -/
def load_latest_project (fs : String → Bool) (root : String) (d : JsonDoc) :
    Except LoadError (String × Option String × List LoadedCaption) :=
  match parse_document root d with
  | (audio_path, video_path, caps) =>
    (validate_paths fs audio_path video_path).map fun pr => (pr.1, pr.2, caps)

/-- The caption list of a successful load. -/
def loaded_captions (fs : String → Bool) (root : String) (d : JsonDoc) :
    Option (List LoadedCaption) :=
  match load_latest_project fs root d with
  | .ok (_, _, caps) => some caps
  | .error _ => none

/-- Projection of a serializer-input caption to the fields the loader
reconstructs: `(start, end, text, emotion)`. -/
def projCaption (c : Caption) : LoadedCaption :=
  { start := c.start, stop := c.stop, text := c.text, emotion := c.emotion }

/-- Modelled from the spec (testable property 7): the "hand-constructed
legacy-format document with equivalent content" for a caption list — one
legacy entry `{start, duration = end - start, text, emotion}` per caption,
with the same audio and optional video references.  No such constructor
exists in the source; only the legacy *parse* path does. -/
def legacy_document_of (audio_ref : String) (video_ref : Option String)
    (captions : List Caption) : JsonDoc :=
  { captions := some (captions.map fun c =>
      { start := c.start, duration := c.stop - c.start
        text := c.text, emotion := some c.emotion })
    audio := some audio_ref
    video := video_ref }

/-! ## Theorems: sentence segmentation -/

/-- One-step unfolding of `group_words_go` on a non-empty word list. -/
theorem group_words_go_cons (g : ℚ) (m : ℕ) (cur : List Word) (w : Word)
    (rest : List Word) :
    group_words_go g m cur (w :: rest) =
      if ((match rest with
           | next :: _ => decide (g < next.start - w.stop)
           | [] => true) || decide (m < (cur ++ [w]).length))
          && !(cur ++ [w]).isEmpty then
        mkSentence (cur ++ [w]) :: group_words_go g m [] rest
      else group_words_go g m (cur ++ [w]) rest := rfl

/-- The flushed sentences of `group_words_go` concatenate to the pending
words followed by the remaining input, whenever input remains (the last
word always flushes, so nothing pending is ever dropped). -/
theorem group_words_go_flatMap (g : ℚ) (m : ℕ) :
    ∀ (ws cur : List Word), ws ≠ [] →
      (group_words_go g m cur ws).flatMap (fun s => s.words) = cur ++ ws := by
  intro ws
  induction ws with
  | nil => intro cur h; exact absurd rfl h
  | cons w rest ih =>
    intro cur _
    rw [group_words_go_cons]
    cases rest with
    | nil => simp [group_words_go, mkSentence]
    | cons r rs =>
      split
      · simp [mkSentence, ih [] (by simp)]
      · simpa using ih (cur ++ [w]) (by simp)

/-- Every sentence flushed by `group_words_go` has at most `m + 1` words,
provided the pending accumulator has at most `m`. -/
theorem group_words_go_length_le (g : ℚ) (m : ℕ) :
    ∀ (ws cur : List Word), cur.length ≤ m →
      ∀ s ∈ group_words_go g m cur ws, s.words.length ≤ m + 1 := by
  intro ws
  induction ws with
  | nil => intro cur _ s hs; simp [group_words_go] at hs
  | cons w rest ih =>
    intro cur hcur s hs
    rw [group_words_go_cons] at hs
    split at hs
    · rcases List.mem_cons.mp hs with h | h
      · subst h
        simpa [mkSentence] using Nat.succ_le_succ hcur
      · exact ih [] (Nat.zero_le m) s h
    · next hcond =>
      refine ih (cur ++ [w]) ?_ s hs
      simp only [Bool.and_eq_true, Bool.or_eq_true, decide_eq_true_eq,
        Bool.not_eq_true', List.isEmpty_eq_false, ne_eq, not_and, not_or] at hcond
      have h2 : ¬ m < (cur ++ [w]).length :=
        fun hb => (hcond (Or.inr hb)) (by simp)
      simp only [List.length_append, List.length_cons, List.length_nil] at h2 ⊢
      omega

/-- C8: for every configuration and input word list, the words of the
produced sentences, concatenated in output order, are exactly the input
word list (no word dropped, none duplicated, order preserved), and empty
input yields empty output. -/
theorem claim_C8_partition (g : ℚ) (m : ℕ) (ws : List Word) :
    (group_words_into_sentences g m ws).flatMap (fun s => s.words) = ws ∧
    group_words_into_sentences g m ([] : List Word) = [] := by
  refine ⟨?_, rfl⟩
  cases ws with
  | nil => rfl
  | cons w rest =>
    simpa using group_words_go_flatMap g m (w :: rest) [] (by simp)

/-- C2 (amended): every sentence produced by the segmenter has at most
`max_words_per_sentence + 1` words (the overflow check
`len(current_sentence) > MAX_WORDS_PER_SENTENCE` runs only after the word
is appended, so a sentence can exceed the bound by exactly one). -/
theorem claim_C2_word_bound (g : ℚ) (m : ℕ) (ws : List Word) :
    ∀ s ∈ group_words_into_sentences g m ws, s.words.length ≤ m + 1 :=
  group_words_go_length_le g m ws [] (Nat.zero_le m)

/-- Witness for C2 (amended): a concrete one-word input at
`max_words_per_sentence = 1` produces that word as a sentence within the
bound. -/
theorem claim_C2_word_bound_witness :
    mkSentence [⟨"a", 0, 0⟩] ∈ group_words_into_sentences 0 1 [⟨"a", 0, 0⟩] ∧
    (mkSentence [⟨"a", 0, 0⟩]).words.length ≤ 1 + 1 :=
  ⟨by decide, claim_C2_word_bound 0 1 [⟨"a", 0, 0⟩] _ (by decide)⟩

/-- Counterexample to C2 as stated: with `max_words_per_sentence = 2` and
three contiguous words (all gaps zero, `max_pause_gap = 10`), the single
produced sentence has 3 words, exceeding the configured maximum. -/
theorem claim_C2_counterexample :
    ¬ ∀ s ∈ group_words_into_sentences 10 2
        [⟨"a", 0, 0⟩, ⟨"b", 0, 0⟩, ⟨"c", 0, 0⟩], s.words.length ≤ 2 := by
  decide

/-! ## Theorems: serializer structure -/

/-- Caption text tracks never pass a non-`"text"` type filter. -/
theorem text_tracks_filter_audio (caps : List Caption) :
    (caps.map text_track_of).filter (fun t => t.type == "audio") = [] := by
  induction caps with
  | nil => rfl
  | cons c cs ih => simp [text_track_of, ih]

/-- Caption text tracks never pass a `"video"` type filter. -/
theorem text_tracks_filter_video (caps : List Caption) :
    (caps.map text_track_of).filter (fun t => t.type == "video") = [] := by
  induction caps with
  | nil => rfl
  | cons c cs ih => simp [text_track_of, ih]

/-- Caption text tracks all pass the `"text"` type filter. -/
theorem text_tracks_filter_text (caps : List Caption) :
    (caps.map text_track_of).filter (fun t => t.type == "text") =
      caps.map text_track_of := by
  induction caps with
  | nil => rfl
  | cons c cs ih => simp [text_track_of, ih]

/-- C5 (amended): the serializer always creates exactly one audio material
and one audio track, and creates a video material/track iff the video
reference is present *and non-empty* (Python truthiness); it never consults
the filesystem, so this holds regardless of whether the referenced file
exists on disk. -/
theorem claim_C5_audio_video_cardinality (title : String)
    (video_file : Option String) (audio_file : String)
    (captions : List Caption) :
    ((build_capcut_structure title video_file audio_file captions).materials.getD
        emptyMaterials).audios.length = 1 ∧
    (((build_capcut_structure title video_file audio_file captions).tracks.getD []).filter
        (fun t => t.type == "audio")).length = 1 ∧
    ((build_capcut_structure title video_file audio_file captions).materials.getD
        emptyMaterials).videos.length = (if pyTruthy video_file then 1 else 0) ∧
    (((build_capcut_structure title video_file audio_file captions).tracks.getD []).filter
        (fun t => t.type == "video")).length = (if pyTruthy video_file then 1 else 0) := by
  unfold build_capcut_structure
  cases hv : pyTruthy video_file <;>
    simp [hv, List.filter_append, text_tracks_filter_audio, text_tracks_filter_video]

/-- Counterexample to C5 as stated: with a *present* but empty video
reference (`video_file = some ""`), the serializer creates no video
material and no video track, so "video material/track iff the reference is
present" fails. -/
theorem claim_C5_counterexample :
    ((build_capcut_structure "t" (some "") "a.mp3" []).materials.getD
        emptyMaterials).videos.length = 0 ∧
    (some "" : Option String) ≠ none := by
  exact ⟨rfl, by simp⟩

/-- C10: every track the serializer emits (the optional video track, the
audio track, and one text track per caption) has a segments list of length
exactly 1, and there are exactly as many text tracks as input captions. -/
theorem claim_C10_one_segment_per_track (title : String)
    (video_file : Option String) (audio_file : String)
    (captions : List Caption) :
    (((build_capcut_structure title video_file audio_file captions).tracks.getD []).all
        (fun t => t.segments.length == 1)) = true ∧
    (((build_capcut_structure title video_file audio_file captions).tracks.getD []).filter
        (fun t => t.type == "text")).length = captions.length := by
  unfold build_capcut_structure
  cases hv : pyTruthy video_file <;>
    simp [hv, List.filter_append, List.all_append, text_tracks_filter_audio,
      text_tracks_filter_video, text_tracks_filter_text, List.all_eq_true,
      text_track_of]

/-! ## Theorems: loader format dispatch and error behavior -/

/-- C3 (amended): a `tracks` key selects the nested parse path; a
`captions` key without `tracks` selects the legacy parse path; a document
with neither key fails — but with the `UnboundLocalError` of the
never-assigned `audio_path` local reaching the validation block
(`LoadError.nameError`), not a structured MalformedDocument error. -/
theorem claim_C3_format_dispatch (fs : String → Bool) (root : String)
    (d : JsonDoc) :
    (∀ tracks, d.tracks = some tracks →
      parse_document root d =
        parse_nested root tracks (d.materials.getD emptyMaterials)) ∧
    (∀ lcaps, d.tracks = none → d.captions = some lcaps →
      parse_document root d = parse_legacy root lcaps d.audio d.video) ∧
    (d.tracks = none → d.captions = none →
      load_latest_project fs root d = .error .nameError) := by
  refine ⟨?_, ?_, ?_⟩
  · intro tracks ht
    simp [parse_document, ht]
  · intro lcaps ht hc
    simp [parse_document, ht, hc]
  · intro ht hc
    simp [load_latest_project, parse_document, ht, hc, validate_paths,
      Except.map]

/-- Witness for C3 (amended) at concrete documents of each shape. -/
theorem claim_C3_format_dispatch_witness :
    parse_document "P" ({ tracks := some [] } : JsonDoc) =
      parse_nested "P" [] emptyMaterials ∧
    parse_document "P" ({ captions := some [] } : JsonDoc) =
      parse_legacy "P" [] none none ∧
    load_latest_project (fun _ => true) "P" ({} : JsonDoc) =
      .error .nameError :=
  ⟨(claim_C3_format_dispatch (fun _ => true) "P" _).1 [] rfl,
   (claim_C3_format_dispatch (fun _ => true) "P" _).2.1 [] rfl rfl,
   (claim_C3_format_dispatch (fun _ => true) "P" _).2.2 rfl rfl⟩

/-- Counterexample to C3 as stated: the document with neither key makes
the loader fail with the unbound-local error, which is not the claimed
MalformedDocument error. -/
theorem claim_C3_counterexample :
    load_latest_project (fun _ => true) "P" ({} : JsonDoc) =
      .error .nameError ∧
    (Except.error LoadError.nameError :
        Except LoadError (String × Option String × List LoadedCaption)) ≠
      .error .malformedDocument := by
  exact ⟨rfl, by simp⟩

/-- C9: a nested-format document whose `materials.audios` list is empty
leaves the `audio_path` local at `None` (it is only assigned inside the
loop over audio materials), so validation crashes with the `TypeError`
from `os.path.exists(None)` — not a structured error. -/
theorem claim_C9_empty_audios_typeerror (fs : String → Bool) (root : String)
    (d : JsonDoc) (tracks : List Track)
    (ht : d.tracks = some tracks)
    (ha : (d.materials.getD emptyMaterials).audios = []) :
    load_latest_project fs root d = .error .typeError := by
  simp [load_latest_project, parse_document, ht, parse_nested, ha,
    validate_paths, Except.map]

/-- Witness for C9: a concrete nested document with no audio material. -/
theorem claim_C9_empty_audios_typeerror_witness :
    load_latest_project (fun _ => true) "P"
        ({ tracks := some [] } : JsonDoc) = .error .typeError :=
  claim_C9_empty_audios_typeerror (fun _ => true) "P" _ [] rfl rfl

/-- C7: once parsing has resolved an audio path, a missing audio file makes
the load fail with MissingAsset, while a missing video file degrades to
`video_path = none` and the load succeeds. -/
theorem claim_C7_asset_validation (fs : String → Bool) (root : String)
    (d : JsonDoc) (audio_path : String) (video_path : Option String)
    (caps : List LoadedCaption)
    (hp : parse_document root d = (some (some audio_path), video_path, caps)) :
    (fs audio_path = false →
      load_latest_project fs root d = .error (.missingAsset audio_path)) ∧
    (∀ v, fs audio_path = true → video_path = some v → fs v = false →
      load_latest_project fs root d = .ok (audio_path, none, caps)) := by
  constructor
  · intro hfa
    simp [load_latest_project, hp, validate_paths, hfa, Except.map]
  · intro v hfa hv hfv
    simp [load_latest_project, hp, validate_paths, hfa, hv, hfv, Except.map]

/-- Witness for C7 at a concrete legacy document: no file exists — the
audio raise fires; only the audio file exists — the load succeeds with the
video degraded to `none`. -/
theorem claim_C7_asset_validation_witness :
    load_latest_project (fun _ => false) "P"
        ({ captions := some [], audio := some "a", video := some "v" } :
          JsonDoc) = .error (.missingAsset "P\\a") ∧
    load_latest_project (fun p => p == "P\\a") "P"
        ({ captions := some [], audio := some "a", video := some "v" } :
          JsonDoc) = .ok ("P\\a", none, []) :=
  ⟨(claim_C7_asset_validation (fun _ => false) "P"
      { captions := some [], audio := some "a", video := some "v" }
      "P\\a" (some "P\\v") [] rfl).1 rfl,
   (claim_C7_asset_validation (fun p => p == "P\\a") "P"
      { captions := some [], audio := some "a", video := some "v" }
      "P\\a" (some "P\\v") [] rfl).2 "P\\v" rfl rfl rfl⟩

/-! ## Theorems: loader caption ordering -/

/-- On a successful load, the returned captions are exactly the parsed
captions (validation only touches the paths). -/
theorem load_ok_captions (fs : String → Bool) (root : String) (d : JsonDoc)
    (a : String) (v : Option String) (caps : List LoadedCaption)
    (h : load_latest_project fs root d = .ok (a, v, caps)) :
    caps = (parse_document root d).2.2 := by
  unfold load_latest_project at h
  rcases hp : parse_document root d with ⟨ap, vp, cs⟩
  rw [hp] at h
  simp only [] at h
  cases hv : validate_paths fs ap vp with
  | error e => rw [hv] at h; simp [Except.map] at h
  | ok pr =>
    rw [hv] at h
    simp [Except.map] at h
    simp [h.2.2]

/-- C6: on every successful load, a nested-format document yields a caption
list sorted by `start` (non-decreasing) regardless of the order of the text
segments in the tracks, while a legacy-format document yields its `captions`
entries converted in their original array order, unsorted. -/
theorem claim_C6_caption_order (fs : String → Bool) (root : String)
    (d : JsonDoc) (a : String) (v : Option String)
    (caps : List LoadedCaption)
    (h : load_latest_project fs root d = .ok (a, v, caps)) :
    (d.tracks.isSome →
      caps.Pairwise (fun x y => x.start ≤ y.start)) ∧
    (∀ lcaps, d.tracks = none → d.captions = some lcaps →
      caps = lcaps.map caption_of_legacy) := by
  have hc := load_ok_captions fs root d a v caps h
  constructor
  · intro hts
    rcases Option.isSome_iff_exists.mp hts with ⟨tracks, ht⟩
    rw [hc]
    simp only [parse_document, ht, parse_nested]
    exact List.sorted_insertionSort startLE _
  · intro lcaps ht hcap
    rw [hc]
    simp [parse_document, ht, hcap, parse_legacy]

/-- Witness for C6: a nested document whose two text segments appear out of
order loads sorted; a concrete legacy document keeps its array order. -/
theorem claim_C6_caption_order_witness :
    List.Pairwise (fun x y : LoadedCaption => x.start ≤ y.start)
      [⟨1, 2, "x", "neutral"⟩, ⟨5, 6, "y", "neutral"⟩] ∧
    ([⟨3, 7, "z", "neutral"⟩] : List LoadedCaption) =
      ([⟨3, 4, "z", none⟩] : List LegacyCaption).map caption_of_legacy :=
  ⟨(claim_C6_caption_order (fun _ => true) "P"
      { tracks := some [⟨"text", 0, 0,
          [{ category := "text", target_timerange := ⟨5000000, 1000000⟩
             content := some "y", metadata_emotion := some "neutral" },
           { category := "text", target_timerange := ⟨1000000, 1000000⟩
             content := some "x", metadata_emotion := some "neutral" }]⟩]
        materials := some { audios := [{ path := some "a", type := "audio" }] } }
      "P\\a" none [⟨1, 2, "x", "neutral"⟩, ⟨5, 6, "y", "neutral"⟩]
      rfl).1 rfl,
   (claim_C6_caption_order (fun _ => true) "P"
      { captions := some [⟨3, 4, "z", none⟩], audio := some "a" }
      "P\\a" none [⟨3, 7, "z", "neutral"⟩] rfl).2
      [⟨3, 4, "z", none⟩] rfl rfl⟩

/-! ## Theorems: microsecond conversion -/

/-- Python `int()` truncation agrees with the floor on nonnegative values. -/
theorem pyInt_eq_floor {q : ℚ} (hq : 0 ≤ q) : pyInt q = ⌊q⌋ := by
  rw [pyInt, if_pos hq, Rat.floor_def' q, Rat.floor_def]

/-- C4 (amended): the serializer converts seconds to microseconds with
Python `int(seconds * 1_000_000)` — truncation toward zero, equal to the
floor for the (nonnegative) timestamps — not with round-to-nearest: this
covers each caption's start, each caption's duration, and the document
duration taken from the last caption's end. -/
theorem claim_C4_truncation (title af : String) (vf : Option String)
    (caps : List Caption) (c last : Caption)
    (h0 : 0 ≤ c.start) (h1 : c.start ≤ c.stop)
    (hl : caps.getLast? = some last) (h2 : 0 ≤ last.stop) :
    (text_track_of c).segments.map (fun sg => sg.target_timerange) =
      [⟨⌊c.start * 1000000⌋, ⌊(c.stop - c.start) * 1000000⌋⟩] ∧
    (build_capcut_structure title vf af caps).duration =
      some ⌊last.stop * 1000000⌋ := by
  have hm : (0:ℚ) ≤ 1000000 := by norm_num
  constructor
  · have ha := pyInt_eq_floor (mul_nonneg h0 hm)
    have hb := pyInt_eq_floor (mul_nonneg (sub_nonneg.mpr h1) hm)
    simp [text_track_of, ha, hb]
  · have hd := pyInt_eq_floor (mul_nonneg h2 hm)
    simp [build_capcut_structure, hl, hd]

/-- Witness for C4 (amended) at a concrete caption `[0.5 s, 1 s]`. -/
theorem claim_C4_truncation_witness :
    (text_track_of ⟨1/2, 1, "w", "neutral", 0⟩).segments.map
        (fun sg => sg.target_timerange) =
      [⟨⌊((1:ℚ)/2) * 1000000⌋, ⌊((1:ℚ) - 1/2) * 1000000⌋⟩] ∧
    (build_capcut_structure "t" none "a" [⟨1/2, 1, "w", "neutral", 0⟩]).duration =
      some ⌊(1:ℚ) * 1000000⌋ :=
  claim_C4_truncation "t" "a" none [⟨1/2, 1, "w", "neutral", 0⟩]
    ⟨1/2, 1, "w", "neutral", 0⟩ ⟨1/2, 1, "w", "neutral", 0⟩
    (by norm_num) (by norm_num) rfl (by norm_num)

/-- Counterexample to C4 as stated: at `end = 1.9` microseconds the code
(`int(...)`) stores duration `1`, while `round(1.9e-6 * 1_000_000) = 2`. -/
theorem claim_C4_counterexample :
    (build_capcut_structure "t" none "a.mp3"
        [⟨0, 19/10000000, "hi", "neutral", 0⟩]).duration = some 1 ∧
    pyRound ((19/10000000 : ℚ) * 1000000) = 2 := by
  constructor
  · decide
  · decide

/-! ## Theorems: serialize/load round trip -/

/-- The loader's view of one serialized caption: both timestamps went
through microsecond truncation. -/
def quantize (c : Caption) : LoadedCaption :=
  let s : ℚ := (pyInt (c.start * 1000000) : ℚ) / 1000000
  let d : ℚ := (pyInt ((c.stop - c.start) * 1000000) : ℚ) / 1000000
  ⟨s, s + d, c.text, c.emotion⟩

/-- Reading back the one segment of a serialized text track gives the
quantized caption. -/
theorem caption_of_text_track (c : Caption) :
    ((text_track_of c).segments).map caption_of_segment = [quantize c] := rfl

/-- Extracting segments of the per-caption text tracks yields the
quantized captions, in caption order. -/
theorem text_tracks_extract (caps : List Caption) :
    ((caps.map text_track_of).flatMap (fun t => t.segments)).map
        caption_of_segment = caps.map quantize := by
  induction caps with
  | nil => rfl
  | cons c cs ih =>
    simp only [List.map_cons, List.flatMap_cons, List.map_append, ih,
      caption_of_text_track]
    rfl

/-- What the nested parse path sees in a serialized document: the
quantized captions, stably sorted by start. -/
theorem parse_build_captions (root title : String) (vf : Option String)
    (af : String) (caps : List Caption) :
    (parse_document root (build_capcut_structure title vf af caps)).2.2 =
      (caps.map quantize).insertionSort startLE := by
  cases hv : pyTruthy vf <;>
    simp [parse_document, build_capcut_structure, parse_nested, hv,
      List.filter_append, text_tracks_filter_text, text_tracks_extract]

/-- The audio path the nested parse path resolves for a serialized
document. -/
theorem parse_build_audio (root title : String) (vf : Option String)
    (af : String) (caps : List Caption) :
    (parse_document root (build_capcut_structure title vf af caps)).1 =
      some (some (joinPath root (winPath ("material/import/" ++ af)))) := by
  simp [parse_document, build_capcut_structure, parse_nested]

/-- When parsing resolved an audio path and every file exists, the load
succeeds and returns exactly the parsed captions. -/
theorem loaded_captions_of_resolved (root : String) (d : JsonDoc)
    (ap : String) (h : (parse_document root d).1 = some (some ap)) :
    loaded_captions (fun _ => true) root d =
      some (parse_document root d).2.2 := by
  unfold loaded_captions load_latest_project
  rcases hp : parse_document root d with ⟨a, vp, cs⟩
  rw [hp] at h
  simp only [] at h
  subst h
  cases vp <;> simp [validate_paths, Except.map]

/-- An integral-microsecond caption survives quantization unchanged. -/
theorem pyInt_cast_of_den_one {q : ℚ} (h : q.den = 1) : (pyInt q : ℚ) = q := by
  have hn : (q.num : ℚ) = q := (Rat.den_eq_one_iff q).mp h
  have hf : q.floor = q.num := by rw [Rat.floor]; simp [h]
  have hc : q.ceil = q.num := by rw [Rat.ceil]; simp [h]
  rw [pyInt]
  split <;> simp [hf, hc, hn]

/-- Quantization is the identity on captions whose start and duration are
whole numbers of microseconds. -/
theorem quantize_eq_proj {c : Caption}
    (h1 : (c.start * 1000000).den = 1)
    (h2 : ((c.stop - c.start) * 1000000).den = 1) :
    quantize c = projCaption c := by
  have e1 := pyInt_cast_of_den_one h1
  have e2 := pyInt_cast_of_den_one h2
  have e3 : c.start * 1000000 / 1000000 = c.start :=
    mul_div_cancel_right₀ _ (by norm_num)
  have e4 : (c.stop - c.start) * 1000000 / 1000000 = c.stop - c.start :=
    mul_div_cancel_right₀ _ (by norm_num)
  simp [quantize, projCaption, e1, e2, e3, e4]

/-- One legacy entry of the spec's equivalent legacy document converts
back to the original caption. -/
theorem legacy_roundtrip_entry (c : Caption) :
    caption_of_legacy ⟨c.start, c.stop - c.start, c.text, some c.emotion⟩ =
      projCaption c := by
  simp [caption_of_legacy, projCaption]

/-- C1 (amended): `load(serialize(captions, audio_ref, video_ref, title))`
returns the input captions on `(start, end, text, emotion)`.  The
legacy-format round trip is exact for every caption list.  The
nested-format round trip holds provided every caption's start and duration
are whole numbers of microseconds (otherwise `int()` truncation loses the
sub-microsecond remainder) and the list is sorted by start (otherwise the
loader's sort reorders it). -/
theorem claim_C1_roundtrip (root title af : String) (vf : Option String)
    (caps : List Caption) :
    ((∀ c ∈ caps, (c.start * 1000000).den = 1 ∧
        ((c.stop - c.start) * 1000000).den = 1) →
      caps.Pairwise (fun a b => a.start ≤ b.start) →
      loaded_captions (fun _ => true) root
          (build_capcut_structure title vf af caps) =
        some (caps.map projCaption)) ∧
    loaded_captions (fun _ => true) root
        (legacy_document_of af vf caps) =
      some (caps.map projCaption) := by
  constructor
  · intro hden hsorted
    have hq : caps.map quantize = caps.map projCaption :=
      List.map_congr_left fun c hc =>
        quantize_eq_proj (hden c hc).1 (hden c hc).2
    have hsort : (caps.map projCaption).Pairwise startLE :=
      hsorted.map projCaption (fun _ _ h => h)
    rw [loaded_captions_of_resolved root _ _ (parse_build_audio root title vf af caps),
      parse_build_captions, hq, List.Sorted.insertionSort_eq hsort]
  · have h1 : (parse_document root (legacy_document_of af vf caps)).1 =
        some (some (joinPath root af)) := by
      simp [parse_document, legacy_document_of, parse_legacy]
    have h2 : (parse_document root (legacy_document_of af vf caps)).2.2 =
        caps.map projCaption := by
      simp only [parse_document, legacy_document_of, parse_legacy,
        List.map_map]
      exact List.map_congr_left fun c _ => legacy_roundtrip_entry c
    rw [loaded_captions_of_resolved root _ _ h1, h2]

/-- Witness for C1 (amended): the nested conjunct at a one-caption list
with whole-microsecond times, and the unconditional legacy conjunct at the
same list. -/
theorem claim_C1_roundtrip_witness :
    loaded_captions (fun _ => true) "P"
        (build_capcut_structure "t" none "a.mp3"
          [⟨0, 1, "hi", "happy", 0⟩]) =
      some ([⟨0, 1, "hi", "happy", 0⟩].map projCaption) ∧
    loaded_captions (fun _ => true) "P"
        (legacy_document_of "a.mp3" none [⟨0, 1, "hi", "happy", 0⟩]) =
      some ([⟨0, 1, "hi", "happy", 0⟩].map projCaption) :=
  ⟨(claim_C1_roundtrip "P" "t" "a.mp3" none
      [⟨0, 1, "hi", "happy", 0⟩]).1 (by decide) (by simp),
   (claim_C1_roundtrip "P" "t" "a.mp3" none
      [⟨0, 1, "hi", "happy", 0⟩]).2⟩

/-- Counterexample to C1 as stated, in both ways the nested round trip
fails.  First: a caption ending at 1.9 microseconds comes back with
`end = 1e-6` — `int()` truncation stores duration 1 µs.  Second: a
two-caption list with exact whole-microsecond times but given out of start
order (5 s before 1 s) comes back re-sorted, not in input order. -/
theorem claim_C1_counterexample :
    loaded_captions (fun _ => true) "P"
        (build_capcut_structure "t" none "a.mp3"
          [⟨0, 19/10000000, "hi", "neutral", 0⟩]) ≠
      some ([⟨0, 19/10000000, "hi", "neutral", 0⟩].map projCaption) ∧
    loaded_captions (fun _ => true) "P"
        (build_capcut_structure "t" none "a.mp3"
          [⟨5, 6, "y", "neutral", 0⟩, ⟨1, 2, "x", "neutral", 1⟩]) ≠
      some ([⟨5, 6, "y", "neutral", 0⟩,
             ⟨1, 2, "x", "neutral", 1⟩].map projCaption) := by
  constructor
  · decide
  · decide

end CapcutAuto
